import Mathlib

/-!
# AlEngine: the OpenAL tone engine of the toy emulator

A shallow embedding of `src/tools/AlEngine.cpp`.

* The OpenAL library is an external collaborator.  It is modelled as an arbitrary
  transition function `Backend β` on an abstract backend state `β`: every library call
  may change the backend state and returns an `ALRet`.  Nothing is assumed about it.
* Every library call the engine makes is appended, together with what the backend
  answered, to a transcript (`World.log`); text written to `stderr` is kept apart.
* `float` values that are only stored and passed on (the gain, the constant vectors) are
  rationals.  The synthesizers' arithmetic is stated over the reals.
-/

/-! ## The OpenAL interface -/

/-- The OpenAL enumerators the engine passes to the library. -/
inductive ALenum
  | AL_GAIN
  | AL_PITCH
  | AL_POSITION
  | AL_VELOCITY
  | AL_ORIENTATION
  | AL_LOOPING
  | AL_BUFFERS_PROCESSED
  | AL_SOURCE_STATE
  | AL_FORMAT_MONO8
  deriving DecidableEq, Repr

/-- The value of `AL_NO_ERROR` in the OpenAL headers. -/
def AL_NO_ERROR : Int := 0

/-- The value of `AL_PLAYING` in the OpenAL headers. -/
def AL_PLAYING : Int := 0x1012

/-- Which synthesizer filled a sample array. -/
inductive Wave
  | sine
  | square
  deriving DecidableEq, Repr

/-- The local array `buf` of a synthesizer, as handed to `alBufferData`: it is determined by
the synthesizer that filled it and by the frequency `f` it was called with. -/
structure PCM where
  wave : Wave
  f : ℚ
  deriving DecidableEq, Repr

/-- One call of the OpenAL library, with the arguments the engine passes.  Pointers and object
names are natural numbers, `0` being `nullptr`.  An argument that the library writes through
(an out-parameter) carries the value it holds before the call. -/
inductive ALCall
  | alcOpenDevice
  | alcCreateContext (device : Nat)
  | alcMakeContextCurrent (context : Nat)
  | alcDestroyContext (context : Nat)
  | alcCloseDevice (device : Nat)
  | alListenerf (param : ALenum) (value : ℚ)
  | alListenerfv (param : ALenum) (values : List ℚ)
  | alGenBuffers (n : Nat) (buffers : List Nat)
  | alGetError
  | alIsBuffer (buffer : Nat)
  | alGenSources (n : Nat) (source : Nat)
  | alSourcef (source : Nat) (param : ALenum) (value : ℚ)
  | alSourcefv (source : Nat) (param : ALenum) (values : List ℚ)
  | alSourcei (source : Nat) (param : ALenum) (value : Int)
  | alDeleteSources (n : Nat) (source : Nat)
  | alDeleteBuffers (n : Nat) (buffers : List Nat)
  | alGetSourcei (source : Nat) (param : ALenum) (value : Int)
  | alSourceUnqueueBuffers (source : Nat) (n : Int) (buffers : List Nat)
  | alSourceQueueBuffers (source : Nat) (n : Nat) (buffers : List Nat)
  | alBufferData (buffer : Nat) (format : ALenum) (data : PCM) (size : Nat) (freq : Nat)
  | alSourcePlay (source : Nat)
  | alSourceStop (source : Nat)
  deriving DecidableEq, Repr

/-- What a library call gives back: `value` is an integer result (a boolean, an error code, or
the integer written through an `ALint*`), `handle` a pointer or object name (the returned
pointer, or the name written through an `ALuint*`), `names` the contents of the name array
after the call. -/
structure ALRet where
  value : Int
  handle : Nat
  names : List Nat
  deriving DecidableEq, Repr

/-- The OpenAL library as the engine sees it: a call changes the backend state and answers. -/
abbrev Backend (β : Type) := ALCall → β → ALRet × β

/-- One entry of the transcript: a call and the backend's answer. -/
abbrev Event := ALCall × ALRet

/-- Everything outside the engine object: the backend state, the transcript of the library
calls made so far, and the lines written to `stderr`. -/
structure World (β : Type) where
  al : β
  log : List Event
  err : List String

/-- Perform one library call: the backend moves, the call and its answer are recorded. -/
def invoke {β : Type} (B : Backend β) (c : ALCall) (w : World β) : ALRet × World β :=
  ((B c w.al).1, { al := (B c w.al).2, log := w.log ++ [(c, (B c w.al).1)], err := w.err })

/-! ## The engine -/

/-- Modelled from the spec: the constant `AL_BUFFERS` is declared in `AlEngine.hpp`, which is
not among the sources; the spec fixes the buffer pool size at N = 2 (and `Init` checks
`beep_buff[0]` and `beep_buff[1]`). -/
def AL_BUFFERS : Nat := 2

/-- The data members of `class AlEngine` that `AlEngine.cpp` uses.  The class declaration is
not among the sources, so the member types are read off their uses: `beep_freq` holds a
`vm::word_t` (an unsigned machine word, here a natural number; no arithmetic is done on it),
`play_buff` an index that every use first reduces modulo the pool size, `device` and
`context` pointers, `beep_buff` the array of `AL_BUFFERS` buffer names. -/
structure AlEngine where
  gain : ℚ
  initiated : Bool
  device : Nat
  context : Nat
  beep_freq : Nat
  buff_created : Bool
  source_created : Bool
  beep_buff : List Nat
  beep_source : Nat
  play_buff : Nat
  deriving DecidableEq, Repr

namespace AlEngine

/-- The constant array `SourcePos`. -/
def SourcePos : List ℚ := [0, 0, 0]

/-- The constant array `SourceVel`. -/
def SourceVel : List ℚ := [0, 0, 0]

/-- The constant array `ListenerPos`. -/
def ListenerPos : List ℚ := [0, 0, 0]

/-- The constant array `ListenerVel`. -/
def ListenerVel : List ℚ := [0, 0, 0]

/-- The constant array `ListenerOri`. -/
def ListenerOri : List ℚ := [0, 0, -1, 0, 1, 0]

/-- The constructor `AlEngine::AlEngine ()`.  Its initializer list sets `gain`, `initiated`,
`device`, `context` and `beep_freq`; the other members get whatever the class declaration
(not among the sources) gives them, taken here as parameters. -/
def ctor (buff_created source_created : Bool) (beep_buff : List Nat)
    (beep_source play_buff : Nat) : AlEngine :=
  { gain := 1, initiated := false, device := 0, context := 0, beep_freq := 0,
    buff_created := buff_created, source_created := source_created,
    beep_buff := beep_buff, beep_source := beep_source, play_buff := play_buff }

/-- The element `beep_buff[i]`. -/
def buff (e : AlEngine) (i : Nat) : Nat := e.beep_buff.getD i 0

/-- The method `AlEngine::Shutdown`. -/
def Shutdown {β : Type} (B : Backend β) (e : AlEngine) (w : World β) : AlEngine × World β :=
  let w1 := if e.source_created then (invoke B (.alDeleteSources 1 e.beep_source) w).2 else w
  let e1 := if e.source_created then { e with source_created := false } else e
  let w2 := if e1.buff_created then (invoke B (.alDeleteBuffers AL_BUFFERS e1.beep_buff) w1).2
            else w1
  let e2 := if e1.buff_created then { e1 with buff_created := false } else e1
  let w3 := if e2.context ≠ 0 then
              (invoke B (.alcDestroyContext e2.context)
                (invoke B (.alcMakeContextCurrent 0) w2).2).2
            else w2
  let e3 := if e2.context ≠ 0 then { e2 with context := 0 } else e2
  let w4 := if e3.device ≠ 0 then (invoke B (.alcCloseDevice e3.device) w3).2 else w3
  let e4 := if e3.device ≠ 0 then { e3 with device := 0 } else e3
  ({ e4 with initiated := false }, { w4 with err := w4.err ++ ["OpenAL closed\n"] })

/-- The method `AlEngine::Init`.  The condition of the buffer check is evaluated left to
right and stops at the first operand that holds, as `||` does. -/
def Init {β : Type} (B : Backend β) (e : AlEngine) (w : World β) :
    Bool × AlEngine × World β :=
  let d := invoke B .alcOpenDevice w
  let e1 := { e with device := d.1.handle }
  if e1.device = 0 then (false, e1, d.2)
  else
    let c := invoke B (.alcCreateContext e1.device) d.2
    let e2 := { e1 with context := c.1.handle }
    if e2.context = 0 then (false, Shutdown B e2 c.2)
    else
      let m := invoke B (.alcMakeContextCurrent e2.context) c.2
      if m.1.value = 0 then (false, Shutdown B e2 m.2)
      else
        let w1 := (invoke B (.alListenerf .AL_GAIN e2.gain) m.2).2
        let g := invoke B (.alGenBuffers AL_BUFFERS e2.beep_buff) w1
        let e3 := { e2 with beep_buff := g.1.names }
        let r := invoke B .alGetError g.2
        if r.1.value ≠ AL_NO_ERROR then (false, Shutdown B e3 r.2)
        else
          let i0 := invoke B (.alIsBuffer (e3.buff 0)) r.2
          if i0.1.value = 0 then (false, Shutdown B e3 i0.2)
          else
            let i1 := invoke B (.alIsBuffer (e3.buff 1)) i0.2
            if i1.1.value = 0 then (false, Shutdown B e3 i1.2)
            else
              let e4 := { e3 with buff_created := true }
              let s := invoke B (.alGenSources 1 e4.beep_source) i1.2
              let e5 := { e4 with beep_source := s.1.handle }
              let r1 := invoke B .alGetError s.2
              if r1.1.value ≠ AL_NO_ERROR then (false, Shutdown B e5 r1.2)
              else
                let e6 := { e5 with source_created := true }
                let w2 := (invoke B (.alSourcef e6.beep_source .AL_PITCH 1) r1.2).2
                let w3 := (invoke B (.alSourcef e6.beep_source .AL_GAIN 1) w2).2
                let w4 := (invoke B (.alSourcefv e6.beep_source .AL_POSITION SourcePos) w3).2
                let w5 := (invoke B (.alSourcefv e6.beep_source .AL_VELOCITY SourceVel) w4).2
                let w6 := (invoke B (.alSourcei e6.beep_source .AL_LOOPING 0) w5).2
                let w7 := (invoke B (.alListenerfv .AL_POSITION ListenerPos) w6).2
                let w8 := (invoke B (.alListenerfv .AL_VELOCITY ListenerVel) w7).2
                let w9 := (invoke B (.alListenerfv .AL_ORIENTATION ListenerOri) w8).2
                let e7 := { e6 with play_buff := 0 }
                (true, { e7 with initiated := true }, w9)

/-- The method `AlEngine::SineSynth`: the sample loop fills `buf` (see `SineSynth_sample`),
then the array is handed to the backend. -/
def SineSynth {β : Type} (B : Backend β) (f : ℚ) (e : AlEngine) (w : World β) : World β :=
  if e.initiated then
    (invoke B (.alBufferData (e.buff e.play_buff) .AL_FORMAT_MONO8 ⟨.sine, f⟩ 11025 44100) w).2
  else w

/-- The method `AlEngine::SqrSynth`: the sample loop fills `buf` (see `SqrSynth_out`),
then the array is handed to the backend. -/
def SqrSynth {β : Type} (B : Backend β) (f : ℚ) (e : AlEngine) (w : World β) : World β :=
  if e.initiated then
    (invoke B (.alBufferData (e.buff e.play_buff) .AL_FORMAT_MONO8 ⟨.square, f⟩ 11025 44100) w).2
  else w

/-- The method `AlEngine::Tone`. -/
def Tone {β : Type} (B : Backend β) (freq : Nat) (e : AlEngine) (w : World β) :
    AlEngine × World β :=
  if e.initiated then
    let q := invoke B (.alGetSourcei e.beep_source .AL_BUFFERS_PROCESSED 0) w
    let r :=
      if freq = e.beep_freq ∧ freq > 0 then
        if q.1.value > 0 then
          let u := invoke B (.alSourceUnqueueBuffers e.beep_source q.1.value e.beep_buff) q.2
          let e1 := { e with beep_buff := u.1.names }
          let e2 := { e1 with play_buff := (e1.play_buff + 1) % AL_BUFFERS }
          let w1 := SineSynth B freq e2 u.2
          let w2 := (invoke B (.alSourceQueueBuffers e2.beep_source 1 [e2.buff e2.play_buff]) w1).2
          let s := invoke B (.alGetSourcei e2.beep_source .AL_SOURCE_STATE 0) w2
          if s.1.value ≠ AL_PLAYING then (e2, (invoke B (.alSourcePlay e2.beep_source) s.2).2)
          else (e2, s.2)
        else (e, q.2)
      else if freq ≠ e.beep_freq ∧ freq > 0 then
        let w1 := (invoke B (.alSourceStop e.beep_source) q.2).2
        let q1 := invoke B (.alGetSourcei e.beep_source .AL_BUFFERS_PROCESSED q.1.value) w1
        let u := invoke B (.alSourceUnqueueBuffers e.beep_source q1.1.value e.beep_buff) q1.2
        let e1 := { e with beep_buff := u.1.names }
        let e2 := { e1 with play_buff := (e1.play_buff + 1) % AL_BUFFERS }
        let w2 := SineSynth B freq e2 u.2
        let w3 := (invoke B (.alSourceQueueBuffers e2.beep_source 1 [e2.buff e2.play_buff]) w2).2
        (e2, (invoke B (.alSourcePlay e2.beep_source) w3).2)
      else
        let w1 := (invoke B (.alSourceStop e.beep_source) q.2).2
        let q1 := invoke B (.alGetSourcei e.beep_source .AL_BUFFERS_PROCESSED q.1.value) w1
        let u := invoke B (.alSourceUnqueueBuffers e.beep_source q1.1.value e.beep_buff) q1.2
        ({ e with beep_buff := u.1.names }, u.2)
    ({ r.1 with beep_freq := freq }, r.2)
  else (e, w)

/-- The method `AlEngine::Update`. -/
def Update {β : Type} (B : Backend β) (e : AlEngine) (w : World β) : AlEngine × World β :=
  if e.initiated ∧ e.beep_freq > 0 then
    let q := invoke B (.alGetSourcei e.beep_source .AL_BUFFERS_PROCESSED 0) w
    if q.1.value > 0 then
      let u := invoke B (.alSourceUnqueueBuffers e.beep_source q.1.value e.beep_buff) q.2
      let e1 := { e with beep_buff := u.1.names }
      let e2 := { e1 with play_buff := (e1.play_buff + 1) % AL_BUFFERS }
      let w1 := SineSynth B e.beep_freq e2 u.2
      let w2 := (invoke B (.alSourceQueueBuffers e2.beep_source 1 [e2.buff e2.play_buff]) w1).2
      let s := invoke B (.alGetSourcei e2.beep_source .AL_SOURCE_STATE 0) w2
      if s.1.value ≠ AL_PLAYING then (e2, (invoke B (.alSourcePlay e2.beep_source) s.2).2)
      else (e2, s.2)
    else (e, q.2)
  else (e, w)

/-! ### The sample loops of the synthesizers

The loops compute in floating point.  Here the same expressions, with the constants of the
source, are evaluated exactly over the reals. -/

/-- The conversion `(unsigned char)` of a floating value: the fractional part is discarded;
the behaviour is undefined (`none`) when the truncated value is not in `0 .. 255`. -/
noncomputable def toUChar (v : ℝ) : Option Nat :=
  if -1 < v ∧ v < 256 then some ⌊v⌋₊ else none

/-- The angle `x = w*(i*dt)` of `SineSynth` at sample `i`, where
`w = f * 2.0f * 3.14159679f` and `dt = 1.0f / 44100`. -/
noncomputable def SineSynth_x (f : ℚ) (i : Nat) : ℝ :=
  ((f : ℝ) * 2 * 3.14159679) * ((i : ℝ) * (1 / 44100))

/-- The element `buf[i]` that the loop of `SineSynth` stores:
`(unsigned char)(128.0f + 128.f * std::sin(x))`. -/
noncomputable def SineSynth_sample (f : ℚ) (i : Nat) : Option Nat :=
  toUChar (128 + 128 * Real.sin (SineSynth_x f i))

/-- The constant `sr_2 = 44100 / 2` of `SqrSynth` (an integer division). -/
def sr_2 : Nat := 44100 / 2

/-- The harmonic whose term `sin(i*dt * w*h) / h` the loop body of `SqrSynth` adds to the base
signal of sample `i`: the `if`/`else if` chain of the source, in its order; `none` when no
branch is taken. -/
def SqrSynth_harmonic (f : ℚ) (_i : Nat) : Option Nat :=
  if f * 3 < sr_2 then some 3
  else if f * 5 < sr_2 then some 5
  else if f * 7 < sr_2 then some 7
  else if f * 9 < sr_2 then some 9
  else if f * 11 < sr_2 then some 11
  else if f * 13 < sr_2 then some 13
  else none

/-- The method `AlEngine::Test`. -/
def Test {β : Type} (B : Backend β) (e : AlEngine) (w : World β) : AlEngine × World β :=
  if e.initiated then
    let e1 := { e with play_buff := (e.play_buff + 1) % 2 }
    let w1 := SqrSynth B 1000 e1 w
    let w2 := (invoke B (.alSourceQueueBuffers e1.beep_source 1 [e1.buff e1.play_buff]) w1).2
    (e1, (invoke B (.alSourcePlay e1.beep_source) w2).2)
  else (e, w)

/-- The setter `AlEngine::MasterGain (float gain)`.  A failed `assert (gain >= 0)` aborts the
program: no state comes back. -/
def MasterGain {β : Type} (B : Backend β) (gain : ℚ) (e : AlEngine) (w : World β) :
    Option (AlEngine × World β) :=
  if gain ≥ 0 then
    let w1 := if e.initiated then (invoke B (.alListenerf .AL_GAIN gain) w).2 else w
    some ({ e with gain := gain }, w1)
  else none

end AlEngine

/-! ## Reading the transcript -/

/-- A backend resource the engine can hold. -/
inductive Resource
  | device (d : Nat)
  | context (c : Nat)
  | buffers (names : List Nat)
  | source (s : Nat)
  deriving DecidableEq, Repr

/-- The resource a transcript entry releases, if it is a release call. -/
def releaseOf (ev : Event) : Option Resource :=
  match ev.1 with
  | .alcCloseDevice d => some (.device d)
  | .alcDestroyContext c => some (.context c)
  | .alDeleteBuffers _ names => some (.buffers names)
  | .alDeleteSources _ s => some (.source s)
  | _ => none

/-- The resources released in a transcript, in the order of the release calls. -/
def released (evs : List Event) : List Resource := evs.filterMap releaseOf

/-- The transcript starts with an `alGetError` that reports no error. -/
def errorCheckPassed : List Event → Bool
  | (.alGetError, r) :: _ => r.value == AL_NO_ERROR
  | _ => false

/-- The transcript starts with an `alGetError` that reports no error, followed by two
`alIsBuffer` calls that both answer true. -/
def bufferCheckPassed : List Event → Bool
  | (.alGetError, r) :: (.alIsBuffer _, i0) :: (.alIsBuffer _, i1) :: _ =>
      r.value == AL_NO_ERROR && i0.value != 0 && i1.value != 0
  | _ => false

/-- The resources a transcript shows as acquired, in the order of acquisition: a device or a
context when the returned pointer is not null, the buffers or the source when the generating
call is followed by a passing check. -/
def acquired : List Event → List Resource
  | [] => []
  | (.alcOpenDevice, r) :: rest =>
      if r.handle ≠ 0 then .device r.handle :: acquired rest else acquired rest
  | (.alcCreateContext _, r) :: rest =>
      if r.handle ≠ 0 then .context r.handle :: acquired rest else acquired rest
  | (.alGenBuffers _ _, r) :: rest =>
      if bufferCheckPassed rest then .buffers r.names :: acquired rest else acquired rest
  | (.alGenSources _ _, r) :: rest =>
      if errorCheckPassed rest then .source r.handle :: acquired rest else acquired rest
  | _ :: rest => acquired rest

/-- The answer recorded in a transcript entry reports the failure of an acquisition step:
a null device or context, a refused make-current of a context, an error code, a name that
is not a buffer. -/
def failingAnswer (ev : Event) : Bool :=
  match ev.1 with
  | .alcOpenDevice => ev.2.handle == 0
  | .alcCreateContext _ => ev.2.handle == 0
  | .alcMakeContextCurrent c => c != 0 && ev.2.value == 0
  | .alGetError => ev.2.value != AL_NO_ERROR
  | .alIsBuffer _ => ev.2.value == 0
  | _ => false

/-- The transcript and the final backend state when the calls are made one after the other
from backend state `s`: each answer is the one the backend gives in the state the calls
before it have left. -/
def replay {β : Type} (B : Backend β) : β → List ALCall → List Event × β
  | s, [] => ([], s)
  | s, c :: cs => ((c, (B c s).1) :: (replay B (B c s).2 cs).1, (replay B (B c s).2 cs).2)

/-- The resources an engine holds, in the order in which `Shutdown` looks at them. -/
def AlEngine.held (e : AlEngine) : List Resource :=
  (if e.source_created then [.source e.beep_source] else []) ++
  (if e.buff_created then [.buffers e.beep_buff] else []) ++
  (if e.context ≠ 0 then [.context e.context] else []) ++
  (if e.device ≠ 0 then [.device e.device] else [])

/-- The number of chunks handed to the backend (`alBufferData` calls) in a transcript. -/
def resyntheses (evs : List Event) : Nat :=
  evs.countP fun ev => match ev.1 with
    | .alBufferData _ _ _ _ _ => true
    | _ => false

/-- The number of polls of `AL_BUFFERS_PROCESSED` in a transcript that were answered with a
positive count. -/
def completions (evs : List Event) : Nat :=
  evs.countP fun ev => match ev.1 with
    | .alGetSourcei _ .AL_BUFFERS_PROCESSED _ => decide (ev.2.value > 0)
    | _ => false

/-- Repeat `Tone(f)` for `n` polls. -/
def AlEngine.poll {β : Type} (B : Backend β) (f : Nat) :
    Nat → AlEngine × World β → AlEngine × World β
  | 0, s => s
  | n + 1, s => AlEngine.poll B f n (AlEngine.Tone B f s.1 s.2)

/-! ## A scripted backend for concrete runs -/

/-- The state of the scripted backend: the count it reports as processed, the source state it
reports, the acquisition step it lets fail (1 device, 2 context, 3 make-current, 4 buffers,
5 source, 6 second buffer name invalid, anything else: none), and the pending error code. -/
structure Fake where
  processed : Int
  state : Int
  failAt : Nat
  error : Int
  deriving DecidableEq, Repr

/-- The scripted backend. -/
def fake : Backend Fake := fun c s =>
  match c with
  | .alcOpenDevice => (⟨0, if s.failAt = 1 then 0 else 7, []⟩, s)
  | .alcCreateContext _ => (⟨0, if s.failAt = 2 then 0 else 8, []⟩, s)
  | .alcMakeContextCurrent _ => (⟨if s.failAt = 3 then 0 else 1, 0, []⟩, s)
  | .alGenBuffers _ names =>
      if s.failAt = 4 then (⟨0, 0, names⟩, { s with error := 0xA005 })
      else if s.failAt = 6 then (⟨0, 0, [1, 0]⟩, s)
      else (⟨0, 0, [1, 2]⟩, s)
  | .alGetError => (⟨s.error, 0, []⟩, { s with error := 0 })
  | .alIsBuffer b => (⟨if b = 1 ∨ b = 2 then 1 else 0, 0, []⟩, s)
  | .alGenSources _ src =>
      if s.failAt = 5 then (⟨0, src, []⟩, { s with error := 0xA005 }) else (⟨0, 3, []⟩, s)
  | .alGetSourcei _ .AL_BUFFERS_PROCESSED _ => (⟨s.processed, 0, []⟩, s)
  | .alGetSourcei _ .AL_SOURCE_STATE _ => (⟨s.state, 0, []⟩, s)
  | .alSourceUnqueueBuffers _ _ names => (⟨0, 0, names⟩, { s with processed := 0 })
  | .alSourcePlay _ => (⟨0, 0, []⟩, { s with state := 0x1012 })
  | .alSourceStop _ => (⟨0, 0, []⟩, { s with state := 0x1014 })
  | _ => (⟨0, 0, []⟩, s)

/-- A world around the scripted backend with nothing recorded yet. -/
def fakeWorld (processed : Int) (failAt : Nat) : World Fake :=
  { al := ⟨processed, 0x1011, failAt, 0⟩, log := [], err := [] }

/-- A freshly constructed engine. -/
def freshEngine : AlEngine := AlEngine.ctor false false [0, 0] 0 0

/-- The engine after a successful `Init` on the scripted backend. -/
def readyEngine : AlEngine :=
  { gain := 1, initiated := true, device := 7, context := 8, beep_freq := 0,
    buff_created := true, source_created := true, beep_buff := [1, 2], beep_source := 3,
    play_buff := 0 }

/-- The engine after `Init` and `Tone(440)` on the scripted backend. -/
def playingEngine : AlEngine :=
  { gain := 1, initiated := true, device := 7, context := 8, beep_freq := 440,
    buff_created := true, source_created := true, beep_buff := [1, 2], beep_source := 3,
    play_buff := 1 }

/-- The scenario: construct, `Init`, `Tone(440)`, `Shutdown`, all on the scripted backend. -/
def playedThenShutdown : AlEngine × World Fake :=
  AlEngine.Shutdown fake
    (AlEngine.Tone fake 440 (AlEngine.Init fake freshEngine (fakeWorld 0 0)).2.1
      (AlEngine.Init fake freshEngine (fakeWorld 0 0)).2.2).1
    (AlEngine.Tone fake 440 (AlEngine.Init fake freshEngine (fakeWorld 0 0)).2.1
      (AlEngine.Init fake freshEngine (fakeWorld 0 0)).2.2).2

/-- The scenario continued: `Init` again after the `Shutdown`. -/
def reinitiated : Bool × AlEngine × World Fake :=
  AlEngine.Init fake playedThenShutdown.1 playedThenShutdown.2

/-! ## Basic facts -/

@[simp] theorem invoke_log {β : Type} (B : Backend β) (c : ALCall) (w : World β) :
    (invoke B c w).2.log = w.log ++ [(c, (B c w.al).1)] := rfl

@[simp] theorem invoke_fst {β : Type} (B : Backend β) (c : ALCall) (w : World β) :
    (invoke B c w).1 = (B c w.al).1 := rfl

@[simp] theorem invoke_al {β : Type} (B : Backend β) (c : ALCall) (w : World β) :
    (invoke B c w).2.al = (B c w.al).2 := rfl

@[simp] theorem invoke_err {β : Type} (B : Backend β) (c : ALCall) (w : World β) :
    (invoke B c w).2.err = w.err := rfl

open AlEngine

/-- C8. An engine that is not Ready absorbs every call: `Tone(f)`, `Update()` and `Test()`
return the engine and the world (backend state, transcript, stderr) exactly as they were, so
no library call is made, and `MasterGain(g)` with `g >= 0` makes no library call either and
changes nothing but the stored gain. -/
theorem C8_not_ready_absorbed {β : Type} (B : Backend β) (e : AlEngine) (w : World β)
    (h : e.initiated = false) :
    (∀ f : Nat, Tone B f e w = (e, w)) ∧ Update B e w = (e, w) ∧ Test B e w = (e, w) ∧
    (∀ g : ℚ, 0 ≤ g → MasterGain B g e w = some ({ e with gain := g }, w)) := by
  refine ⟨fun f => ?_, ?_, ?_, fun g hg => ?_⟩
  · simp [Tone, h]
  · simp [Update, h]
  · simp [Test, h]
  · simp [MasterGain, h, hg]


/-- C4. In a Ready engine `Tone(0)` makes exactly four library calls: the poll of the
processed count, a stop, a second poll, and the unqueue of the count just reported.  No chunk
is synthesized, nothing is queued, no play is issued; `play_buff` is unchanged, `beep_freq`
is 0 and the engine stays Ready.  An `Update()` right after returns engine and world as they
are: no state change, no library call. -/
theorem C4_stop_invariant {β : Type} (B : Backend β) (e : AlEngine) (w : World β)
    (h : e.initiated = true) :
    (∃ a b c d : ALRet, (Tone B 0 e w).2.log = w.log ++
        [(.alGetSourcei e.beep_source .AL_BUFFERS_PROCESSED 0, a),
         (.alSourceStop e.beep_source, b),
         (.alGetSourcei e.beep_source .AL_BUFFERS_PROCESSED a.value, c),
         (.alSourceUnqueueBuffers e.beep_source c.value e.beep_buff, d)]) ∧
    (Tone B 0 e w).1.play_buff = e.play_buff ∧
    (Tone B 0 e w).1.beep_freq = 0 ∧
    (Tone B 0 e w).1.initiated = true ∧
    Update B (Tone B 0 e w).1 (Tone B 0 e w).2 = Tone B 0 e w := by
  refine ⟨?_, ?_, ?_, ?_, ?_⟩
  · simp [Tone, h]
  · simp [Tone, h]
  · simp [Tone, h]
  · simp [Tone, h]
  · simp [Tone, Update, h]

/-- C3. In a Ready engine whose current frequency is not `f2`, `Tone(f2)` with `f2 > 0`
makes, after the initial poll of the processed count and whatever that poll answers, exactly
these library calls in this order: stop, poll, unqueue of the count just reported, buffer
data of one sine chunk at `f2` into the buffer at the rotated index, queue of that one
buffer, play.  It ends with `play_buff` rotated to `(play_buff + 1) mod 2` and with
`beep_freq = f2`. -/
theorem C3_tone_change {β : Type} (B : Backend β) (e : AlEngine) (w : World β) (f2 : Nat)
    (h : e.initiated = true) (hpos : f2 > 0) (hne : f2 ≠ e.beep_freq) :
    (∃ a b c d x y z : ALRet, (Tone B f2 e w).2.log = w.log ++
        [(.alGetSourcei e.beep_source .AL_BUFFERS_PROCESSED 0, a),
         (.alSourceStop e.beep_source, b),
         (.alGetSourcei e.beep_source .AL_BUFFERS_PROCESSED a.value, c),
         (.alSourceUnqueueBuffers e.beep_source c.value e.beep_buff, d),
         (.alBufferData (d.names.getD ((e.play_buff + 1) % 2) 0) .AL_FORMAT_MONO8
            ⟨.sine, (f2 : ℚ)⟩ 11025 44100, x),
         (.alSourceQueueBuffers e.beep_source 1 [d.names.getD ((e.play_buff + 1) % 2) 0], y),
         (.alSourcePlay e.beep_source, z)] ∧
      (Tone B f2 e w).1.beep_buff = d.names) ∧
    (Tone B f2 e w).1.play_buff = (e.play_buff + 1) % 2 ∧
    (Tone B f2 e w).1.beep_freq = f2 ∧
    (Tone B f2 e w).1.initiated = true := by
  refine ⟨?_, ?_, ?_, ?_⟩
  · simp [Tone, SineSynth, buff, AL_BUFFERS, h, hne, hpos]
    exact ⟨_, _, _, _, ⟨rfl, rfl, ⟨rfl, rfl⟩, ⟨rfl, rfl⟩, rfl⟩, rfl⟩
  · simp [Tone, AL_BUFFERS, h, hne, hpos]
  · simp [Tone, h, hne, hpos]
  · simp [Tone, h, hne, hpos]

/-- C7. From every engine state `Shutdown()` makes only release calls, in the order source,
buffers, context (made non-current, then destroyed), device, one for each resource the
engine holds and none for a resource it does not hold; afterwards the engine is not
initiated and holds nothing.  A second `Shutdown()` right after makes no library call and
returns the same engine state. -/
theorem C7_shutdown_ordered_idempotent {β : Type} (B : Backend β) (e : AlEngine)
    (w : World β) :
    (∃ evs : List Event, (Shutdown B e w).2.log = w.log ++ evs ∧
      released evs = e.held ∧
      evs.map Prod.fst =
        (if e.source_created then [ALCall.alDeleteSources 1 e.beep_source] else []) ++
        (if e.buff_created then [ALCall.alDeleteBuffers 2 e.beep_buff] else []) ++
        (if e.context ≠ 0 then
          [ALCall.alcMakeContextCurrent 0, ALCall.alcDestroyContext e.context] else []) ++
        (if e.device ≠ 0 then [ALCall.alcCloseDevice e.device] else [])) ∧
    (Shutdown B e w).1.initiated = false ∧
    (Shutdown B e w).1.held = [] ∧
    (Shutdown B (Shutdown B e w).1 (Shutdown B e w).2).1 = (Shutdown B e w).1 ∧
    (Shutdown B (Shutdown B e w).1 (Shutdown B e w).2).2.log = (Shutdown B e w).2.log ∧
    (Shutdown B (Shutdown B e w).1 (Shutdown B e w).2).2.al = (Shutdown B e w).2.al := by
  obtain ⟨g, ini, dev, ctx, fr, bc, sc, bb, bs, pb⟩ := e
  refine ⟨?_, ?_, ?_, ?_, ?_, ?_⟩
  · by_cases h1 : sc = true <;> by_cases h2 : bc = true <;> by_cases h3 : ctx = 0 <;>
      by_cases h4 : dev = 0 <;>
      simp [Shutdown, released, releaseOf, held, AL_BUFFERS, h1, h2, h3, h4]
  · simp [Shutdown]
  · by_cases h1 : sc = true <;> by_cases h2 : bc = true <;> by_cases h3 : ctx = 0 <;>
      by_cases h4 : dev = 0 <;> simp [Shutdown, held, h1, h2, h3, h4]
  · by_cases h1 : sc = true <;> by_cases h2 : bc = true <;> by_cases h3 : ctx = 0 <;>
      by_cases h4 : dev = 0 <;> simp [Shutdown, h1, h2, h3, h4]
  · by_cases h1 : sc = true <;> by_cases h2 : bc = true <;> by_cases h3 : ctx = 0 <;>
      by_cases h4 : dev = 0 <;> simp [Shutdown, h1, h2, h3, h4]
  · by_cases h1 : sc = true <;> by_cases h2 : bc = true <;> by_cases h3 : ctx = 0 <;>
      by_cases h4 : dev = 0 <;> simp [Shutdown, h1, h2, h3, h4]

/-- One sustain poll: a Ready engine playing `f > 0` that gets `Tone(f)` stays Ready at `f`,
and what it appends to the transcript has at most as many chunks as positive polls. -/
theorem Tone_sustain_step {β : Type} (B : Backend β) (e : AlEngine) (w : World β) (f : Nat)
    (h : e.initiated = true) (hf : e.beep_freq = f) (hpos : 0 < f) :
    (Tone B f e w).1.initiated = true ∧ (Tone B f e w).1.beep_freq = f ∧
    ∃ evs : List Event, (Tone B f e w).2.log = w.log ++ evs ∧
      resyntheses evs ≤ completions evs := by
  subst hf
  refine ⟨?_, ?_, (Tone B e.beep_freq e { w with log := [] }).2.log, ?_, ?_⟩
  · simp only [Tone, h, hpos, SineSynth, if_true, and_self, gt_iff_lt, invoke_fst, invoke_al]
    split_ifs <;> simp [h]
  · simp [Tone, h]
  · simp only [Tone, h, hpos, SineSynth, if_true, and_self, gt_iff_lt, invoke_fst, invoke_al]
    split_ifs <;> simp
  · simp only [Tone, h, hpos, SineSynth, if_true, and_self, gt_iff_lt, invoke_fst, invoke_al]
    split_ifs with hq hs <;> simp [resyntheses, completions, hq]

/-- Any number of sustain polls append at most as many chunks as positive polls. -/
theorem poll_sustain {β : Type} (B : Backend β) (f : Nat) (hpos : 0 < f) :
    ∀ (n : Nat) (e : AlEngine) (w : World β), e.initiated = true → e.beep_freq = f →
      ∃ evs : List Event, (poll B f n (e, w)).2.log = w.log ++ evs ∧
        resyntheses evs ≤ completions evs
  | 0, e, w, _, _ => ⟨[], by simp [poll], by simp [resyntheses, completions]⟩
  | n + 1, e, w, h, hf => by
    obtain ⟨hi, hfr, evs1, hl1, hc1⟩ := Tone_sustain_step B e w f h hf hpos
    obtain ⟨evs2, hl2, hc2⟩ := poll_sustain B f hpos n _ _ hi hfr
    refine ⟨evs1 ++ evs2, ?_, ?_⟩
    · simp only [poll]
      rw [hl2, hl1, List.append_assoc]
    · simp only [resyntheses, completions, List.countP_append] at *
      omega

/-- C2. In a Ready engine playing `f > 0`: when the backend answers the poll of the processed
count with 0, `Tone(f)` returns the engine unchanged (so `play_buff` and `beep_freq` are as
before) and the poll is the only library call it makes: no buffer data, no unqueue, no
queue, no play.  And over any number `n` of successive `Tone(f)` calls, whatever the backend
answers, the chunks handed to the backend are at most as many as the polls that were
answered with a positive processed count. -/
theorem C2_sustain_invariant {β : Type} (B : Backend β) (e : AlEngine) (w : World β)
    (f : Nat) (h : e.initiated = true) (hf : e.beep_freq = f) (hpos : 0 < f) :
    ((B (.alGetSourcei e.beep_source .AL_BUFFERS_PROCESSED 0) w.al).1.value = 0 →
      (Tone B f e w).1 = e ∧
      (Tone B f e w).2.log = w.log ++
        [(.alGetSourcei e.beep_source .AL_BUFFERS_PROCESSED 0,
          (B (.alGetSourcei e.beep_source .AL_BUFFERS_PROCESSED 0) w.al).1)]) ∧
    (∀ n : Nat, ∃ evs : List Event, (poll B f n (e, w)).2.log = w.log ++ evs ∧
      resyntheses evs ≤ completions evs) := by
  refine ⟨fun h0 => ?_, fun n => poll_sustain B f hpos n e w h hf⟩
  subst hf
  obtain ⟨g, ini, dev, ctx, fr, bc, sc, bb, bs, pb⟩ := e
  simp only at h
  subst h
  simp_all [Tone]

/-- C1 (amended). In a Ready engine whose current frequency is positive, `Update()` and
`Tone(beep_freq)` return the same engine and the same world: same state, same library calls,
same answers.  When the current frequency is 0, `Update()` returns engine and world as they
are, while `Tone(0)` keeps `beep_freq` and `play_buff` too but makes four library calls: the
poll, a stop, a second poll and an unqueue. -/
theorem C1_update_tone {β : Type} (B : Backend β) (e : AlEngine) (w : World β)
    (h : e.initiated = true) :
    (0 < e.beep_freq → Update B e w = Tone B e.beep_freq e w) ∧
    (e.beep_freq = 0 →
      Update B e w = (e, w) ∧
      (Tone B e.beep_freq e w).1.beep_freq = e.beep_freq ∧
      (Tone B e.beep_freq e w).1.play_buff = e.play_buff ∧
      ∃ a b c d : ALRet, (Tone B e.beep_freq e w).2.log = w.log ++
        [(.alGetSourcei e.beep_source .AL_BUFFERS_PROCESSED 0, a),
         (.alSourceStop e.beep_source, b),
         (.alGetSourcei e.beep_source .AL_BUFFERS_PROCESSED a.value, c),
         (.alSourceUnqueueBuffers e.beep_source c.value e.beep_buff, d)]) := by
  refine ⟨fun hpos => ?_, fun h0 => ⟨?_, ?_, ?_, ?_⟩⟩
  · simp only [Update, Tone, h, hpos, SineSynth, if_true, and_self, gt_iff_lt, true_and]
    split_ifs <;> rfl
  · simp [Update, h0]
  · simp [Tone, h, h0]
  · simp [Tone, h, h0]
  · simp [Tone, h, h0]

/-- C1 (counterexample). The engine that `Init` leaves on the scripted backend is Ready with
current frequency 0; there `Update()` makes no library call, and `Tone(beep_freq)` makes
four. -/
theorem C1_counterexample :
    (Init fake freshEngine (fakeWorld 0 0)).1 = true ∧
    (Init fake freshEngine (fakeWorld 0 0)).2.1 = readyEngine ∧
    readyEngine.initiated = true ∧ readyEngine.beep_freq = 0 ∧
    (Update fake readyEngine (fakeWorld 0 0)).2.log = [] ∧
    (Tone fake readyEngine.beep_freq readyEngine (fakeWorld 0 0)).2.log =
      [(.alGetSourcei 3 .AL_BUFFERS_PROCESSED 0, ⟨0, 0, []⟩),
       (.alSourceStop 3, ⟨0, 0, []⟩),
       (.alGetSourcei 3 .AL_BUFFERS_PROCESSED 0, ⟨0, 0, []⟩),
       (.alSourceUnqueueBuffers 3 0 [1, 2], ⟨0, 0, [1, 2]⟩)] := by
  decide

/-- What `Shutdown` returns, with every test stated on the engine it was called on. -/
theorem Shutdown_eq {β : Type} (B : Backend β) (e : AlEngine) (w : World β) :
    Shutdown B e w =
      ({ e with source_created := false, buff_created := false, context := 0, device := 0,
                initiated := false },
       { (if e.device ≠ 0 then fun x => (invoke B (.alcCloseDevice e.device) x).2 else id)
          ((if e.context ≠ 0 then fun x => (invoke B (.alcDestroyContext e.context)
              (invoke B (.alcMakeContextCurrent 0) x).2).2 else id)
            ((if e.buff_created then
                fun x => (invoke B (.alDeleteBuffers AL_BUFFERS e.beep_buff) x).2 else id)
              ((if e.source_created then
                  fun x => (invoke B (.alDeleteSources 1 e.beep_source) x).2 else id) w)))
         with err := w.err ++ ["OpenAL closed\n"] }) := by
  obtain ⟨g, ini, dev, ctx, fr, bc, sc, bb, bs, pb⟩ := e
  by_cases h1 : sc = true <;> by_cases h2 : bc = true <;> by_cases h3 : ctx = 0 <;>
    by_cases h4 : dev = 0 <;> simp [Shutdown, invoke, h1, h2, h3, h4]

set_option maxHeartbeats 800000 in
/-- The balance of `Init` on an engine that holds nothing, read off the calls it appends to
the transcript. -/
theorem Init_balance {β : Type} (B : Backend β) (e : AlEngine) (w : World β)
    (h : e.initiated = false) (hd : e.device = 0) (hc : e.context = 0)
    (hb : e.buff_created = false) (hs : e.source_created = false)
    (evs : List Event) (hevs : evs = (Init B e w).2.2.log.drop w.log.length) :
    (Init B e w).2.2.log = w.log ++ evs ∧
      ((Init B e w).1 = true ↔ ∀ ev ∈ evs, failingAnswer ev = false) ∧
      (Init B e w).2.1.initiated = (Init B e w).1 ∧
      ((Init B e w).1 = false →
        released evs = (acquired evs).reverse ∧
        (Init B e w).2.1.device = 0 ∧ (Init B e w).2.1.context = 0 ∧
        (Init B e w).2.1.buff_created = false ∧ (Init B e w).2.1.source_created = false) ∧
      ((Init B e w).1 = true →
        released evs = [] ∧ (acquired evs).reverse = (Init B e w).2.1.held) := by
  subst hevs
  generalize hR : Init B e w = R
  obtain ⟨g, ini, dev, ctx, fr, bc, sc, bb, bs, pb⟩ := e
  simp only at h hd hc hb hs
  subst h hd hc hb hs
  simp only [Init, invoke, buff] at hR
  generalize B .alcOpenDevice w.al = r1 at hR
  generalize B (.alcCreateContext r1.1.handle) r1.2 = r2 at hR
  generalize B (.alcMakeContextCurrent r2.1.handle) r2.2 = r3 at hR
  generalize B (.alListenerf .AL_GAIN g) r3.2 = r4 at hR
  generalize B (.alGenBuffers AL_BUFFERS bb) r4.2 = r5 at hR
  generalize B .alGetError r5.2 = r6 at hR
  generalize B (.alIsBuffer (r5.1.names.getD 0 0)) r6.2 = r7 at hR
  generalize B (.alIsBuffer (r5.1.names.getD 1 0)) r7.2 = r8 at hR
  generalize B (.alGenSources 1 bs) r8.2 = r9 at hR
  generalize B .alGetError r9.2 = r10 at hR
  generalize B (.alSourcef r9.1.handle .AL_PITCH 1) r10.2 = r11 at hR
  generalize B (.alSourcef r9.1.handle .AL_GAIN 1) r11.2 = r12 at hR
  generalize B (.alSourcefv r9.1.handle .AL_POSITION SourcePos) r12.2 = r13 at hR
  generalize B (.alSourcefv r9.1.handle .AL_VELOCITY SourceVel) r13.2 = r14 at hR
  generalize B (.alSourcei r9.1.handle .AL_LOOPING 0) r14.2 = r15 at hR
  generalize B (.alListenerfv .AL_POSITION ListenerPos) r15.2 = r16 at hR
  generalize B (.alListenerfv .AL_VELOCITY ListenerVel) r16.2 = r17 at hR
  generalize B (.alListenerfv .AL_ORIENTATION ListenerOri) r17.2 = r18 at hR
  split_ifs at hR <;> subst hR <;>
    simp_all [Shutdown_eq, invoke, failingAnswer, released, releaseOf, acquired,
      bufferCheckPassed, errorCheckPassed, AL_NO_ERROR, AL_BUFFERS, held]

set_option maxHeartbeats 1600000 in
/-- The calls `Init` makes on an engine that holds nothing: the answers are the backend's own,
and the transcript is one of eight, decided by the first answer that reports a failure. -/
theorem Init_transcript {β : Type} (B : Backend β) (e : AlEngine) (w : World β)
    (h : e.initiated = false) (hd : e.device = 0) (hc : e.context = 0)
    (hb : e.buff_created = false) (hs : e.source_created = false)
    (evs : List Event) (hevs : evs = (Init B e w).2.2.log.drop w.log.length) :
    replay B w.al (evs.map Prod.fst) = (evs, (Init B e w).2.2.al) ∧
      (
      (∃ d : ALRet, d.handle = 0 ∧
        evs =
          [(.alcOpenDevice, d)] ∧
        (Init B e w).1 = false) ∨
      (∃ d c z : ALRet, d.handle ≠ 0 ∧ c.handle = 0 ∧
        evs =
          [(.alcOpenDevice, d),
           (.alcCreateContext d.handle, c),
           (.alcCloseDevice d.handle, z)] ∧
        (Init B e w).1 = false) ∨
      (∃ d c m x y z : ALRet, d.handle ≠ 0 ∧ c.handle ≠ 0 ∧ m.value = 0 ∧
        evs =
          [(.alcOpenDevice, d),
           (.alcCreateContext d.handle, c),
           (.alcMakeContextCurrent c.handle, m),
           (.alcMakeContextCurrent 0, x),
           (.alcDestroyContext c.handle, y),
           (.alcCloseDevice d.handle, z)] ∧
        (Init B e w).1 = false) ∨
      (∃ d c m l g r x y z : ALRet,
        d.handle ≠ 0 ∧ c.handle ≠ 0 ∧ m.value ≠ 0 ∧ r.value ≠ AL_NO_ERROR ∧
        evs =
          [(.alcOpenDevice, d),
           (.alcCreateContext d.handle, c),
           (.alcMakeContextCurrent c.handle, m),
           (.alListenerf .AL_GAIN e.gain, l),
           (.alGenBuffers AL_BUFFERS e.beep_buff, g),
           (.alGetError, r),
           (.alcMakeContextCurrent 0, x),
           (.alcDestroyContext c.handle, y),
           (.alcCloseDevice d.handle, z)] ∧
        (Init B e w).1 = false) ∨
      (∃ d c m l g r i0 x y z : ALRet,
        d.handle ≠ 0 ∧ c.handle ≠ 0 ∧ m.value ≠ 0 ∧ r.value = AL_NO_ERROR ∧ i0.value = 0 ∧
        evs =
          [(.alcOpenDevice, d),
           (.alcCreateContext d.handle, c),
           (.alcMakeContextCurrent c.handle, m),
           (.alListenerf .AL_GAIN e.gain, l),
           (.alGenBuffers AL_BUFFERS e.beep_buff, g),
           (.alGetError, r),
           (.alIsBuffer (g.names.getD 0 0), i0),
           (.alcMakeContextCurrent 0, x),
           (.alcDestroyContext c.handle, y),
           (.alcCloseDevice d.handle, z)] ∧
        (Init B e w).1 = false) ∨
      (∃ d c m l g r i0 i1 x y z : ALRet,
        d.handle ≠ 0 ∧ c.handle ≠ 0 ∧ m.value ≠ 0 ∧ r.value = AL_NO_ERROR ∧ i0.value ≠ 0 ∧
        i1.value = 0 ∧
        evs =
          [(.alcOpenDevice, d),
           (.alcCreateContext d.handle, c),
           (.alcMakeContextCurrent c.handle, m),
           (.alListenerf .AL_GAIN e.gain, l),
           (.alGenBuffers AL_BUFFERS e.beep_buff, g),
           (.alGetError, r),
           (.alIsBuffer (g.names.getD 0 0), i0),
           (.alIsBuffer (g.names.getD 1 0), i1),
           (.alcMakeContextCurrent 0, x),
           (.alcDestroyContext c.handle, y),
           (.alcCloseDevice d.handle, z)] ∧
        (Init B e w).1 = false) ∨
      (∃ d c m l g r i0 i1 s q u x y z : ALRet,
        d.handle ≠ 0 ∧ c.handle ≠ 0 ∧ m.value ≠ 0 ∧ r.value = AL_NO_ERROR ∧ i0.value ≠ 0 ∧
        i1.value ≠ 0 ∧ q.value ≠ AL_NO_ERROR ∧
        evs =
          [(.alcOpenDevice, d),
           (.alcCreateContext d.handle, c),
           (.alcMakeContextCurrent c.handle, m),
           (.alListenerf .AL_GAIN e.gain, l),
           (.alGenBuffers AL_BUFFERS e.beep_buff, g),
           (.alGetError, r),
           (.alIsBuffer (g.names.getD 0 0), i0),
           (.alIsBuffer (g.names.getD 1 0), i1),
           (.alGenSources 1 e.beep_source, s),
           (.alGetError, q),
           (.alDeleteBuffers AL_BUFFERS g.names, u),
           (.alcMakeContextCurrent 0, x),
           (.alcDestroyContext c.handle, y),
           (.alcCloseDevice d.handle, z)] ∧
        (Init B e w).1 = false) ∨
      (∃ d c m l g r i0 i1 s q a1 a2 a3 a4 a5 a6 a7 a8 : ALRet,
        d.handle ≠ 0 ∧ c.handle ≠ 0 ∧ m.value ≠ 0 ∧ r.value = AL_NO_ERROR ∧ i0.value ≠ 0 ∧
        i1.value ≠ 0 ∧ q.value = AL_NO_ERROR ∧
        evs =
          [(.alcOpenDevice, d),
           (.alcCreateContext d.handle, c),
           (.alcMakeContextCurrent c.handle, m),
           (.alListenerf .AL_GAIN e.gain, l),
           (.alGenBuffers AL_BUFFERS e.beep_buff, g),
           (.alGetError, r),
           (.alIsBuffer (g.names.getD 0 0), i0),
           (.alIsBuffer (g.names.getD 1 0), i1),
           (.alGenSources 1 e.beep_source, s),
           (.alGetError, q),
           (.alSourcef s.handle .AL_PITCH 1, a1),
           (.alSourcef s.handle .AL_GAIN 1, a2),
           (.alSourcefv s.handle .AL_POSITION SourcePos, a3),
           (.alSourcefv s.handle .AL_VELOCITY SourceVel, a4),
           (.alSourcei s.handle .AL_LOOPING 0, a5),
           (.alListenerfv .AL_POSITION ListenerPos, a6),
           (.alListenerfv .AL_VELOCITY ListenerVel, a7),
           (.alListenerfv .AL_ORIENTATION ListenerOri, a8)] ∧
        (Init B e w).1 = true ∧
        (Init B e w).2.1 =
          { e with device := d.handle, context := c.handle, beep_buff := g.names,
                   buff_created := true, beep_source := s.handle, source_created := true,
                   play_buff := 0, initiated := true })) := by
  subst hevs
  generalize hR : Init B e w = R
  obtain ⟨g, ini, dev, ctx, fr, bc, sc, bb, bs, pb⟩ := e
  simp only at h hd hc hb hs
  subst h hd hc hb hs
  simp only [Init, invoke, buff] at hR
  generalize h1 : B .alcOpenDevice w.al = r1 at hR
  generalize h2 : B (.alcCreateContext r1.1.handle) r1.2 = r2 at hR
  generalize h3 : B (.alcMakeContextCurrent r2.1.handle) r2.2 = r3 at hR
  generalize h4 : B (.alListenerf .AL_GAIN g) r3.2 = r4 at hR
  generalize h5 : B (.alGenBuffers AL_BUFFERS bb) r4.2 = r5 at hR
  generalize h6 : B .alGetError r5.2 = r6 at hR
  generalize h7 : B (.alIsBuffer (r5.1.names.getD 0 0)) r6.2 = r7 at hR
  generalize h8 : B (.alIsBuffer (r5.1.names.getD 1 0)) r7.2 = r8 at hR
  generalize h9 : B (.alGenSources 1 bs) r8.2 = r9 at hR
  generalize h10 : B .alGetError r9.2 = r10 at hR
  generalize h11 : B (.alSourcef r9.1.handle .AL_PITCH 1) r10.2 = r11 at hR
  generalize h12 : B (.alSourcef r9.1.handle .AL_GAIN 1) r11.2 = r12 at hR
  generalize h13 : B (.alSourcefv r9.1.handle .AL_POSITION SourcePos) r12.2 = r13 at hR
  generalize h14 : B (.alSourcefv r9.1.handle .AL_VELOCITY SourceVel) r13.2 = r14 at hR
  generalize h15 : B (.alSourcei r9.1.handle .AL_LOOPING 0) r14.2 = r15 at hR
  generalize h16 : B (.alListenerfv .AL_POSITION ListenerPos) r15.2 = r16 at hR
  generalize h17 : B (.alListenerfv .AL_VELOCITY ListenerVel) r16.2 = r17 at hR
  generalize h18 : B (.alListenerfv .AL_ORIENTATION ListenerOri) r17.2 = r18 at hR
  split_ifs at hR with c1 c2 c3 c4 c5 c6 c7 <;> subst hR
  · refine ⟨?_, ?_⟩
    · simp_all [Shutdown_eq, invoke, replay]
    · refine Or.inl ⟨r1.1, ?_⟩
      simp_all [Shutdown_eq, invoke, AL_NO_ERROR]
  · refine ⟨?_, ?_⟩
    · simp_all [Shutdown_eq, invoke, replay]
    · refine Or.inr (Or.inl ⟨r1.1, r2.1, (B (.alcCloseDevice r1.1.handle) r2.2).1, ?_⟩)
      simp_all [Shutdown_eq, invoke, AL_NO_ERROR]
  · refine ⟨?_, ?_⟩
    · simp_all [Shutdown_eq, invoke, replay]
    · refine Or.inr (Or.inr (Or.inl ⟨r1.1, r2.1, r3.1, (B (.alcMakeContextCurrent 0) r3.2).1,
          (B (.alcDestroyContext r2.1.handle) (B (.alcMakeContextCurrent 0) r3.2).2).1,
          (B (.alcCloseDevice r1.1.handle) (B (.alcDestroyContext r2.1.handle) (B (.alcMakeContextCurrent 0) r3.2).2).2).1,
          ?_⟩))
      simp_all [Shutdown_eq, invoke, AL_NO_ERROR]
  · refine ⟨?_, ?_⟩
    · simp_all [Shutdown_eq, invoke, replay]
    · refine Or.inr (Or.inr (Or.inr (Or.inl ⟨r1.1, r2.1, r3.1, r4.1, r5.1, r6.1,
          (B (.alcMakeContextCurrent 0) r6.2).1,
          (B (.alcDestroyContext r2.1.handle) (B (.alcMakeContextCurrent 0) r6.2).2).1,
          (B (.alcCloseDevice r1.1.handle) (B (.alcDestroyContext r2.1.handle) (B (.alcMakeContextCurrent 0) r6.2).2).2).1,
          ?_⟩)))
      simp_all [Shutdown_eq, invoke, AL_NO_ERROR]
  · refine ⟨?_, ?_⟩
    · simp_all [Shutdown_eq, invoke, replay]
    · refine Or.inr (Or.inr (Or.inr (Or.inr (Or.inl ⟨r1.1, r2.1, r3.1, r4.1, r5.1, r6.1, r7.1,
          (B (.alcMakeContextCurrent 0) r7.2).1,
          (B (.alcDestroyContext r2.1.handle) (B (.alcMakeContextCurrent 0) r7.2).2).1,
          (B (.alcCloseDevice r1.1.handle) (B (.alcDestroyContext r2.1.handle) (B (.alcMakeContextCurrent 0) r7.2).2).2).1,
          ?_⟩))))
      simp_all [Shutdown_eq, invoke, AL_NO_ERROR]
  · refine ⟨?_, ?_⟩
    · simp_all [Shutdown_eq, invoke, replay]
    · refine Or.inr (Or.inr (Or.inr (Or.inr (Or.inr (Or.inl ⟨r1.1, r2.1, r3.1, r4.1, r5.1, r6.1,
          r7.1, r8.1, (B (.alcMakeContextCurrent 0) r8.2).1,
          (B (.alcDestroyContext r2.1.handle) (B (.alcMakeContextCurrent 0) r8.2).2).1,
          (B (.alcCloseDevice r1.1.handle) (B (.alcDestroyContext r2.1.handle) (B (.alcMakeContextCurrent 0) r8.2).2).2).1,
          ?_⟩)))))
      simp_all [Shutdown_eq, invoke, AL_NO_ERROR]
  · refine ⟨?_, ?_⟩
    · simp_all [Shutdown_eq, invoke, replay]
    · refine Or.inr (Or.inr (Or.inr (Or.inr (Or.inr (Or.inr (Or.inl ⟨r1.1, r2.1, r3.1, r4.1, r5.1,
          r6.1, r7.1, r8.1, r9.1, r10.1, (B (.alDeleteBuffers AL_BUFFERS r5.1.names) r10.2).1,
          (B (.alcMakeContextCurrent 0) (B (.alDeleteBuffers AL_BUFFERS r5.1.names) r10.2).2).1,
          (B (.alcDestroyContext r2.1.handle) (B (.alcMakeContextCurrent 0) (B (.alDeleteBuffers AL_BUFFERS r5.1.names) r10.2).2).2).1,
          (B (.alcCloseDevice r1.1.handle) (B (.alcDestroyContext r2.1.handle) (B (.alcMakeContextCurrent 0) (B (.alDeleteBuffers AL_BUFFERS r5.1.names) r10.2).2).2).2).1,
          ?_⟩))))))
      simp_all [Shutdown_eq, invoke, AL_NO_ERROR]
  · refine ⟨?_, ?_⟩
    · simp_all [Shutdown_eq, invoke, replay]
    · refine Or.inr (Or.inr (Or.inr (Or.inr (Or.inr (Or.inr (Or.inr (⟨r1.1, r2.1, r3.1, r4.1, r5.1,
          r6.1, r7.1, r8.1, r9.1, r10.1, r11.1, r12.1, r13.1, r14.1, r15.1, r16.1, r17.1, r18.1,
          ?_⟩)))))))
      simp_all [Shutdown_eq, invoke, AL_NO_ERROR]

/-- C6. `Init()` on an engine that is not initiated and holds nothing, on any backend and
from any backend state.  The calls it makes are answered by the backend one after the other
(`replay`), and its transcript is exactly one of eight:

* device open answers null: that call alone, `Init` returns false;
* context creation answers null: open, create, then close of the device, false;
* make-current refused: open, create, make-current, then make-current(null), destroy of the
  context, close of the device, false;
* buffer generation fails (an error code, or the first or the second name is not a buffer):
  open, create, make-current, listener gain, generate buffers and the check up to its first
  failing answer, then make-current(null), destroy, close, false;
* source generation reports an error: all of the above with a passing check, generate
  source, error query, then delete of the buffers, make-current(null), destroy, close,
  false;
* every answer good: the ten acquisition calls and the eight configuration calls, no release
  call, `Init` returns true, and the engine holds the device, context, buffers and source
  the backend gave, with `play_buff = 0` and `initiated = true`.

So `Init` returns false at every failing step and true only when every step succeeded.  In
terms of the transcript: it returns true exactly when no answer reports a failure; the
engine is initiated exactly when it returned true; on false the released resources are
exactly those acquired during the call, each once, in reverse order of acquisition, and the
engine holds nothing (device and context null, `buff_created` and `source_created` false);
on true nothing is released and the engine holds exactly what it acquired. -/
theorem C6_init_rollback {β : Type} (B : Backend β) (e : AlEngine) (w : World β)
    (h : e.initiated = false) (hd : e.device = 0) (hc : e.context = 0)
    (hb : e.buff_created = false) (hs : e.source_created = false) :
    ∃ evs : List Event, (Init B e w).2.2.log = w.log ++ evs ∧
      replay B w.al (evs.map Prod.fst) = (evs, (Init B e w).2.2.al) ∧
      (
      (∃ d : ALRet, d.handle = 0 ∧
        evs =
          [(.alcOpenDevice, d)] ∧
        (Init B e w).1 = false) ∨
      (∃ d c z : ALRet, d.handle ≠ 0 ∧ c.handle = 0 ∧
        evs =
          [(.alcOpenDevice, d),
           (.alcCreateContext d.handle, c),
           (.alcCloseDevice d.handle, z)] ∧
        (Init B e w).1 = false) ∨
      (∃ d c m x y z : ALRet, d.handle ≠ 0 ∧ c.handle ≠ 0 ∧ m.value = 0 ∧
        evs =
          [(.alcOpenDevice, d),
           (.alcCreateContext d.handle, c),
           (.alcMakeContextCurrent c.handle, m),
           (.alcMakeContextCurrent 0, x),
           (.alcDestroyContext c.handle, y),
           (.alcCloseDevice d.handle, z)] ∧
        (Init B e w).1 = false) ∨
      (∃ d c m l g r x y z : ALRet,
        d.handle ≠ 0 ∧ c.handle ≠ 0 ∧ m.value ≠ 0 ∧ r.value ≠ AL_NO_ERROR ∧
        evs =
          [(.alcOpenDevice, d),
           (.alcCreateContext d.handle, c),
           (.alcMakeContextCurrent c.handle, m),
           (.alListenerf .AL_GAIN e.gain, l),
           (.alGenBuffers AL_BUFFERS e.beep_buff, g),
           (.alGetError, r),
           (.alcMakeContextCurrent 0, x),
           (.alcDestroyContext c.handle, y),
           (.alcCloseDevice d.handle, z)] ∧
        (Init B e w).1 = false) ∨
      (∃ d c m l g r i0 x y z : ALRet,
        d.handle ≠ 0 ∧ c.handle ≠ 0 ∧ m.value ≠ 0 ∧ r.value = AL_NO_ERROR ∧ i0.value = 0 ∧
        evs =
          [(.alcOpenDevice, d),
           (.alcCreateContext d.handle, c),
           (.alcMakeContextCurrent c.handle, m),
           (.alListenerf .AL_GAIN e.gain, l),
           (.alGenBuffers AL_BUFFERS e.beep_buff, g),
           (.alGetError, r),
           (.alIsBuffer (g.names.getD 0 0), i0),
           (.alcMakeContextCurrent 0, x),
           (.alcDestroyContext c.handle, y),
           (.alcCloseDevice d.handle, z)] ∧
        (Init B e w).1 = false) ∨
      (∃ d c m l g r i0 i1 x y z : ALRet,
        d.handle ≠ 0 ∧ c.handle ≠ 0 ∧ m.value ≠ 0 ∧ r.value = AL_NO_ERROR ∧ i0.value ≠ 0 ∧
        i1.value = 0 ∧
        evs =
          [(.alcOpenDevice, d),
           (.alcCreateContext d.handle, c),
           (.alcMakeContextCurrent c.handle, m),
           (.alListenerf .AL_GAIN e.gain, l),
           (.alGenBuffers AL_BUFFERS e.beep_buff, g),
           (.alGetError, r),
           (.alIsBuffer (g.names.getD 0 0), i0),
           (.alIsBuffer (g.names.getD 1 0), i1),
           (.alcMakeContextCurrent 0, x),
           (.alcDestroyContext c.handle, y),
           (.alcCloseDevice d.handle, z)] ∧
        (Init B e w).1 = false) ∨
      (∃ d c m l g r i0 i1 s q u x y z : ALRet,
        d.handle ≠ 0 ∧ c.handle ≠ 0 ∧ m.value ≠ 0 ∧ r.value = AL_NO_ERROR ∧ i0.value ≠ 0 ∧
        i1.value ≠ 0 ∧ q.value ≠ AL_NO_ERROR ∧
        evs =
          [(.alcOpenDevice, d),
           (.alcCreateContext d.handle, c),
           (.alcMakeContextCurrent c.handle, m),
           (.alListenerf .AL_GAIN e.gain, l),
           (.alGenBuffers AL_BUFFERS e.beep_buff, g),
           (.alGetError, r),
           (.alIsBuffer (g.names.getD 0 0), i0),
           (.alIsBuffer (g.names.getD 1 0), i1),
           (.alGenSources 1 e.beep_source, s),
           (.alGetError, q),
           (.alDeleteBuffers AL_BUFFERS g.names, u),
           (.alcMakeContextCurrent 0, x),
           (.alcDestroyContext c.handle, y),
           (.alcCloseDevice d.handle, z)] ∧
        (Init B e w).1 = false) ∨
      (∃ d c m l g r i0 i1 s q a1 a2 a3 a4 a5 a6 a7 a8 : ALRet,
        d.handle ≠ 0 ∧ c.handle ≠ 0 ∧ m.value ≠ 0 ∧ r.value = AL_NO_ERROR ∧ i0.value ≠ 0 ∧
        i1.value ≠ 0 ∧ q.value = AL_NO_ERROR ∧
        evs =
          [(.alcOpenDevice, d),
           (.alcCreateContext d.handle, c),
           (.alcMakeContextCurrent c.handle, m),
           (.alListenerf .AL_GAIN e.gain, l),
           (.alGenBuffers AL_BUFFERS e.beep_buff, g),
           (.alGetError, r),
           (.alIsBuffer (g.names.getD 0 0), i0),
           (.alIsBuffer (g.names.getD 1 0), i1),
           (.alGenSources 1 e.beep_source, s),
           (.alGetError, q),
           (.alSourcef s.handle .AL_PITCH 1, a1),
           (.alSourcef s.handle .AL_GAIN 1, a2),
           (.alSourcefv s.handle .AL_POSITION SourcePos, a3),
           (.alSourcefv s.handle .AL_VELOCITY SourceVel, a4),
           (.alSourcei s.handle .AL_LOOPING 0, a5),
           (.alListenerfv .AL_POSITION ListenerPos, a6),
           (.alListenerfv .AL_VELOCITY ListenerVel, a7),
           (.alListenerfv .AL_ORIENTATION ListenerOri, a8)] ∧
        (Init B e w).1 = true ∧
        (Init B e w).2.1 =
          { e with device := d.handle, context := c.handle, beep_buff := g.names,
                   buff_created := true, beep_source := s.handle, source_created := true,
                   play_buff := 0, initiated := true })) ∧
      ((Init B e w).1 = true ↔ ∀ ev ∈ evs, failingAnswer ev = false) ∧
      (Init B e w).2.1.initiated = (Init B e w).1 ∧
      ((Init B e w).1 = false →
        released evs = (acquired evs).reverse ∧
        (Init B e w).2.1.device = 0 ∧ (Init B e w).2.1.context = 0 ∧
        (Init B e w).2.1.buff_created = false ∧ (Init B e w).2.1.source_created = false) ∧
      ((Init B e w).1 = true →
        released evs = [] ∧ (acquired evs).reverse = (Init B e w).2.1.held) := by
  obtain ⟨t1, t2⟩ := Init_transcript B e w h hd hc hb hs _ rfl
  obtain ⟨b0, b1, b2, b3, b4⟩ := Init_balance B e w h hd hc hb hs _ rfl
  exact ⟨_, b0, t1, t2, b1, b2, b3, b4⟩

/-- `Init` never writes `beep_freq`. -/
theorem Init_beep_freq {β : Type} (B : Backend β) (e : AlEngine) (w : World β) :
    (Init B e w).2.1.beep_freq = e.beep_freq := by
  simp only [Init]
  split_ifs <;> simp [Shutdown_eq]

/-- C5. On the scripted backend: construct, `Init` (true), `Tone(440)`, `Shutdown`, `Init`
again.  The second `Init` returns true and leaves the engine initiated with `play_buff = 0`,
but `beep_freq` is still 440, not 0: the tone state machine is not back in its initial
state.  A `Tone(440)` right after takes the sustain branch and only polls the backend:
nothing is synthesized, queued or played. -/
theorem C5_reinit_keeps_frequency :
    (Init fake freshEngine (fakeWorld 0 0)).1 = true ∧
    (Init fake freshEngine (fakeWorld 0 0)).2.1.beep_freq = 0 ∧
    playedThenShutdown.1.initiated = false ∧
    reinitiated.1 = true ∧
    reinitiated.2.1.initiated = true ∧
    reinitiated.2.1.play_buff = 0 ∧
    reinitiated.2.1.beep_freq = 440 ∧
    (Tone fake 440 reinitiated.2.1 reinitiated.2.2).2.log =
      reinitiated.2.2.log ++ [(.alGetSourcei 3 .AL_BUFFERS_PROCESSED 0, ⟨0, 0, []⟩)] := by
  decide

/-- C10. For every frequency `f` and every sample index `i`, the chain of `SqrSynth` selects
the 3rd harmonic when `f * 3 < 22050` and no harmonic otherwise: the branches for the
harmonics 5, 7, 9, 11 and 13 are never taken. -/
theorem C10_only_third_harmonic (f : ℚ) (i : Nat) :
    SqrSynth_harmonic f i = if f * 3 < 22050 then some 3 else none := by
  unfold SqrSynth_harmonic
  have hsr : ((sr_2 : Nat) : ℚ) = 22050 := by norm_num [sr_2]
  rw [hsr]
  by_cases h : f * 3 < 22050
  · simp [h]
  · have h5 : ¬ f * 5 < 22050 := by linarith
    have h7 : ¬ f * 7 < 22050 := by linarith
    have h9 : ¬ f * 9 < 22050 := by linarith
    have h11 : ¬ f * 11 < 22050 := by linarith
    have h13 : ¬ f * 13 < 22050 := by linarith
    simp [h, h5, h7, h9, h11, h13]

/-- The angle of a sine sample is a rational number. -/
theorem SineSynth_x_rat (f : ℚ) (i : Nat) :
    SineSynth_x f i = ((f * 2 * 3.14159679 * ((i : ℚ) * (1 / 44100)) : ℚ) : ℝ) := by
  unfold SineSynth_x
  push_cast
  ring

/-- The sine of a rational number is never exactly 1. -/
theorem sin_rat_ne_one (q : ℚ) : Real.sin (q : ℝ) ≠ 1 := by
  intro h
  obtain ⟨k, hk⟩ := Real.sin_eq_one_iff.mp h
  have hne : ((1 / 2 + 2 * (k : ℚ) : ℚ) : ℝ) ≠ 0 := by
    have h2 : (1 / 2 + 2 * (k : ℚ) : ℚ) ≠ 0 := by
      intro h0
      have h1 : (1 : ℚ) + 4 * (k : ℚ) = 0 := by linarith
      have h3 : (1 : ℤ) + 4 * k = 0 := by exact_mod_cast h1
      omega
    exact_mod_cast h2
  have hpi : Real.pi = ((q / (1 / 2 + 2 * (k : ℚ)) : ℚ) : ℝ) := by
    rw [Rat.cast_div, eq_div_iff hne]
    push_cast
    linarith
  exact irrational_pi ⟨_, hpi.symm⟩

/-- C9 (amended). For every frequency `f` with `0 < f < 22050`, sample 0 of the sine chunk is
exactly 128, and every one of the 11025 samples is defined and lies in `0 .. 255`. -/
theorem C9_sine_samples (f : ℚ) (_hpos : 0 < f) (_hny : f < 22050) :
    SineSynth_sample f 0 = some 128 ∧
    ∀ i : Nat, i < 11025 → ∃ s : Nat, SineSynth_sample f i = some s ∧ s ≤ 255 := by
  constructor
  · have hx : SineSynth_x f 0 = 0 := by simp [SineSynth_x]
    have h128 : ⌊(128 : ℝ)⌋₊ = 128 := by
      exact_mod_cast @Nat.floor_natCast ℝ _ _ 128
    simp only [SineSynth_sample, hx, Real.sin_zero, mul_zero, add_zero, toUChar]
    rw [if_pos (by norm_num), h128]
  · intro i _
    have hlo : -1 ≤ Real.sin (SineSynth_x f i) := Real.neg_one_le_sin _
    have hhi : Real.sin (SineSynth_x f i) < 1 := by
      refine lt_of_le_of_ne (Real.sin_le_one _) ?_
      rw [SineSynth_x_rat]
      exact sin_rat_ne_one _
    have h0 : (0 : ℝ) ≤ 128 + 128 * Real.sin (SineSynth_x f i) := by linarith
    have h256 : 128 + 128 * Real.sin (SineSynth_x f i) < 256 := by linarith
    refine ⟨⌊128 + 128 * Real.sin (SineSynth_x f i)⌋₊, ?_, ?_⟩
    · simp only [SineSynth_sample, toUChar]
      rw [if_pos ⟨by linarith, h256⟩]
    · have : ⌊128 + 128 * Real.sin (SineSynth_x f i)⌋₊ < 256 :=
        (Nat.floor_lt h0).mpr (by exact_mod_cast h256)
      omega

/-- C9 (counterexample). At `f = 11025`, inside `0 < f < 22050`, sample 3 of the sine chunk
is 0: the angle is within `0.00001` of `3π/2`, where the sine is below `-127/128`. -/
theorem C9_counterexample :
    (0 : ℚ) < 11025 ∧ (11025 : ℚ) < 22050 ∧ 3 < 11025 ∧ SineSynth_sample 11025 3 = some 0 := by
  refine ⟨by norm_num, by norm_num, by norm_num, ?_⟩
  have hx : SineSynth_x 11025 3 = 4.712395185 := by
    unfold SineSynth_x
    norm_num
  have h1 := Real.pi_gt_d6
  have h2 := Real.pi_lt_d6
  have hcos : Real.sin (4.712395185 : ℝ) =
      -Real.cos (4.712395185 + Real.pi / 2 - 2 * Real.pi) := by
    rw [Real.cos_sub_two_pi, Real.cos_add_pi_div_two, neg_neg]
  have hd1 : (0 : ℝ) ≤ 4.712395185 + Real.pi / 2 - 2 * Real.pi := by linarith
  have hd2 : (4.712395185 : ℝ) + Real.pi / 2 - 2 * Real.pi ≤ 1 / 100 := by linarith
  have hsq : ((4.712395185 : ℝ) + Real.pi / 2 - 2 * Real.pi) ^ 2 ≤ 1 / 10000 := by nlinarith
  have hc := @Real.one_sub_sq_div_two_le_cos ((4.712395185 : ℝ) + Real.pi / 2 - 2 * Real.pi)
  have hs : Real.sin (4.712395185 : ℝ) < -127 / 128 := by
    rw [hcos]
    linarith
  have hlo : -1 ≤ Real.sin (4.712395185 : ℝ) := Real.neg_one_le_sin _
  simp only [SineSynth_sample, hx, toUChar]
  rw [if_pos ⟨by linarith, by linarith⟩]
  congr 1
  rw [Nat.floor_eq_zero]
  linarith

/-! ## Concrete runs -/

/-- The engines used in the concrete runs are reached through the public operations. -/
theorem engines_reachable :
    (Init fake freshEngine (fakeWorld 0 0)).1 = true ∧
    (Init fake freshEngine (fakeWorld 0 0)).2.1 = readyEngine ∧
    (Tone fake 440 readyEngine (fakeWorld 0 0)).1 = playingEngine := by
  decide

/-- C8 on a freshly constructed engine. -/
theorem C8_witness :
    freshEngine.initiated = false ∧
    ((∀ f : Nat, Tone fake f freshEngine (fakeWorld 0 0) = (freshEngine, fakeWorld 0 0)) ∧
      Update fake freshEngine (fakeWorld 0 0) = (freshEngine, fakeWorld 0 0) ∧
      Test fake freshEngine (fakeWorld 0 0) = (freshEngine, fakeWorld 0 0) ∧
      (∀ g : ℚ, 0 ≤ g → MasterGain fake g freshEngine (fakeWorld 0 0) =
        some ({ freshEngine with gain := g }, fakeWorld 0 0))) :=
  ⟨rfl, C8_not_ready_absorbed fake freshEngine (fakeWorld 0 0) rfl⟩

/-- C4 on the engine playing 440 Hz. -/
theorem C4_witness :
    playingEngine.initiated = true ∧
    ((∃ a b c d : ALRet, (Tone fake 0 playingEngine (fakeWorld 0 0)).2.log =
        (fakeWorld 0 0).log ++
        [(.alGetSourcei playingEngine.beep_source .AL_BUFFERS_PROCESSED 0, a),
         (.alSourceStop playingEngine.beep_source, b),
         (.alGetSourcei playingEngine.beep_source .AL_BUFFERS_PROCESSED a.value, c),
         (.alSourceUnqueueBuffers playingEngine.beep_source c.value
            playingEngine.beep_buff, d)]) ∧
      (Tone fake 0 playingEngine (fakeWorld 0 0)).1.play_buff = playingEngine.play_buff ∧
      (Tone fake 0 playingEngine (fakeWorld 0 0)).1.beep_freq = 0 ∧
      (Tone fake 0 playingEngine (fakeWorld 0 0)).1.initiated = true ∧
      Update fake (Tone fake 0 playingEngine (fakeWorld 0 0)).1
          (Tone fake 0 playingEngine (fakeWorld 0 0)).2 =
        Tone fake 0 playingEngine (fakeWorld 0 0)) :=
  ⟨rfl, C4_stop_invariant fake playingEngine (fakeWorld 0 0) rfl⟩

/-- C3 on the engine playing 440 Hz, asked for 880 Hz. -/
theorem C3_witness :
    playingEngine.initiated = true ∧ 880 > 0 ∧ 880 ≠ playingEngine.beep_freq ∧
    ((∃ a b c d x y z : ALRet, (Tone fake 880 playingEngine (fakeWorld 0 0)).2.log =
        (fakeWorld 0 0).log ++
        [(.alGetSourcei playingEngine.beep_source .AL_BUFFERS_PROCESSED 0, a),
         (.alSourceStop playingEngine.beep_source, b),
         (.alGetSourcei playingEngine.beep_source .AL_BUFFERS_PROCESSED a.value, c),
         (.alSourceUnqueueBuffers playingEngine.beep_source c.value
            playingEngine.beep_buff, d),
         (.alBufferData (d.names.getD ((playingEngine.play_buff + 1) % 2) 0) .AL_FORMAT_MONO8
            ⟨.sine, ((880 : Nat) : ℚ)⟩ 11025 44100, x),
         (.alSourceQueueBuffers playingEngine.beep_source 1
            [d.names.getD ((playingEngine.play_buff + 1) % 2) 0], y),
         (.alSourcePlay playingEngine.beep_source, z)] ∧
        (Tone fake 880 playingEngine (fakeWorld 0 0)).1.beep_buff = d.names) ∧
      (Tone fake 880 playingEngine (fakeWorld 0 0)).1.play_buff =
        (playingEngine.play_buff + 1) % 2 ∧
      (Tone fake 880 playingEngine (fakeWorld 0 0)).1.beep_freq = 880 ∧
      (Tone fake 880 playingEngine (fakeWorld 0 0)).1.initiated = true) :=
  ⟨rfl, by decide, by decide,
    C3_tone_change fake playingEngine (fakeWorld 0 0) 880 rfl (by decide) (by decide)⟩

/-- C2 on the engine playing 440 Hz, the backend reporting no processed buffer. -/
theorem C2_witness :
    playingEngine.initiated = true ∧ playingEngine.beep_freq = 440 ∧ 0 < 440 ∧
    (((fake (.alGetSourcei playingEngine.beep_source .AL_BUFFERS_PROCESSED 0)
          (fakeWorld 0 0).al).1.value = 0 →
        (Tone fake 440 playingEngine (fakeWorld 0 0)).1 = playingEngine ∧
        (Tone fake 440 playingEngine (fakeWorld 0 0)).2.log = (fakeWorld 0 0).log ++
          [(.alGetSourcei playingEngine.beep_source .AL_BUFFERS_PROCESSED 0,
            (fake (.alGetSourcei playingEngine.beep_source .AL_BUFFERS_PROCESSED 0)
              (fakeWorld 0 0).al).1)]) ∧
      (∀ n : Nat, ∃ evs : List Event,
        (poll fake 440 n (playingEngine, fakeWorld 0 0)).2.log = (fakeWorld 0 0).log ++ evs ∧
        resyntheses evs ≤ completions evs)) :=
  ⟨rfl, rfl, by decide,
    C2_sustain_invariant fake playingEngine (fakeWorld 0 0) 440 rfl rfl (by decide)⟩

/-- C1 on the engine playing 440 Hz, the backend reporting one processed buffer. -/
theorem C1_witness :
    playingEngine.initiated = true ∧
    ((0 < playingEngine.beep_freq →
        Update fake playingEngine (fakeWorld 1 0) =
          Tone fake playingEngine.beep_freq playingEngine (fakeWorld 1 0)) ∧
      (playingEngine.beep_freq = 0 →
        Update fake playingEngine (fakeWorld 1 0) = (playingEngine, fakeWorld 1 0) ∧
        (Tone fake playingEngine.beep_freq playingEngine (fakeWorld 1 0)).1.beep_freq =
          playingEngine.beep_freq ∧
        (Tone fake playingEngine.beep_freq playingEngine (fakeWorld 1 0)).1.play_buff =
          playingEngine.play_buff ∧
        ∃ a b c d : ALRet,
          (Tone fake playingEngine.beep_freq playingEngine (fakeWorld 1 0)).2.log =
            (fakeWorld 1 0).log ++
            [(.alGetSourcei playingEngine.beep_source .AL_BUFFERS_PROCESSED 0, a),
             (.alSourceStop playingEngine.beep_source, b),
             (.alGetSourcei playingEngine.beep_source .AL_BUFFERS_PROCESSED a.value, c),
             (.alSourceUnqueueBuffers playingEngine.beep_source c.value
                playingEngine.beep_buff, d)])) :=
  ⟨rfl, C1_update_tone fake playingEngine (fakeWorld 1 0) rfl⟩

/-- C6 on a freshly constructed engine, the backend failing at source generation. -/
theorem C6_witness :
    freshEngine.initiated = false ∧ freshEngine.device = 0 ∧ freshEngine.context = 0 ∧
    freshEngine.buff_created = false ∧ freshEngine.source_created = false ∧
    (∃ evs : List Event,
      (Init fake freshEngine (fakeWorld 0 5)).2.2.log = (fakeWorld 0 5).log ++ evs ∧
      replay fake (fakeWorld 0 5).al (evs.map Prod.fst) =
        (evs, (Init fake freshEngine (fakeWorld 0 5)).2.2.al) ∧
      (
      (∃ d : ALRet, d.handle = 0 ∧
        evs =
          [(.alcOpenDevice, d)] ∧
        (Init fake freshEngine (fakeWorld 0 5)).1 = false) ∨
      (∃ d c z : ALRet, d.handle ≠ 0 ∧ c.handle = 0 ∧
        evs =
          [(.alcOpenDevice, d),
           (.alcCreateContext d.handle, c),
           (.alcCloseDevice d.handle, z)] ∧
        (Init fake freshEngine (fakeWorld 0 5)).1 = false) ∨
      (∃ d c m x y z : ALRet, d.handle ≠ 0 ∧ c.handle ≠ 0 ∧ m.value = 0 ∧
        evs =
          [(.alcOpenDevice, d),
           (.alcCreateContext d.handle, c),
           (.alcMakeContextCurrent c.handle, m),
           (.alcMakeContextCurrent 0, x),
           (.alcDestroyContext c.handle, y),
           (.alcCloseDevice d.handle, z)] ∧
        (Init fake freshEngine (fakeWorld 0 5)).1 = false) ∨
      (∃ d c m l g r x y z : ALRet,
        d.handle ≠ 0 ∧ c.handle ≠ 0 ∧ m.value ≠ 0 ∧ r.value ≠ AL_NO_ERROR ∧
        evs =
          [(.alcOpenDevice, d),
           (.alcCreateContext d.handle, c),
           (.alcMakeContextCurrent c.handle, m),
           (.alListenerf .AL_GAIN freshEngine.gain, l),
           (.alGenBuffers AL_BUFFERS freshEngine.beep_buff, g),
           (.alGetError, r),
           (.alcMakeContextCurrent 0, x),
           (.alcDestroyContext c.handle, y),
           (.alcCloseDevice d.handle, z)] ∧
        (Init fake freshEngine (fakeWorld 0 5)).1 = false) ∨
      (∃ d c m l g r i0 x y z : ALRet,
        d.handle ≠ 0 ∧ c.handle ≠ 0 ∧ m.value ≠ 0 ∧ r.value = AL_NO_ERROR ∧ i0.value = 0 ∧
        evs =
          [(.alcOpenDevice, d),
           (.alcCreateContext d.handle, c),
           (.alcMakeContextCurrent c.handle, m),
           (.alListenerf .AL_GAIN freshEngine.gain, l),
           (.alGenBuffers AL_BUFFERS freshEngine.beep_buff, g),
           (.alGetError, r),
           (.alIsBuffer (g.names.getD 0 0), i0),
           (.alcMakeContextCurrent 0, x),
           (.alcDestroyContext c.handle, y),
           (.alcCloseDevice d.handle, z)] ∧
        (Init fake freshEngine (fakeWorld 0 5)).1 = false) ∨
      (∃ d c m l g r i0 i1 x y z : ALRet,
        d.handle ≠ 0 ∧ c.handle ≠ 0 ∧ m.value ≠ 0 ∧ r.value = AL_NO_ERROR ∧ i0.value ≠ 0 ∧
        i1.value = 0 ∧
        evs =
          [(.alcOpenDevice, d),
           (.alcCreateContext d.handle, c),
           (.alcMakeContextCurrent c.handle, m),
           (.alListenerf .AL_GAIN freshEngine.gain, l),
           (.alGenBuffers AL_BUFFERS freshEngine.beep_buff, g),
           (.alGetError, r),
           (.alIsBuffer (g.names.getD 0 0), i0),
           (.alIsBuffer (g.names.getD 1 0), i1),
           (.alcMakeContextCurrent 0, x),
           (.alcDestroyContext c.handle, y),
           (.alcCloseDevice d.handle, z)] ∧
        (Init fake freshEngine (fakeWorld 0 5)).1 = false) ∨
      (∃ d c m l g r i0 i1 s q u x y z : ALRet,
        d.handle ≠ 0 ∧ c.handle ≠ 0 ∧ m.value ≠ 0 ∧ r.value = AL_NO_ERROR ∧ i0.value ≠ 0 ∧
        i1.value ≠ 0 ∧ q.value ≠ AL_NO_ERROR ∧
        evs =
          [(.alcOpenDevice, d),
           (.alcCreateContext d.handle, c),
           (.alcMakeContextCurrent c.handle, m),
           (.alListenerf .AL_GAIN freshEngine.gain, l),
           (.alGenBuffers AL_BUFFERS freshEngine.beep_buff, g),
           (.alGetError, r),
           (.alIsBuffer (g.names.getD 0 0), i0),
           (.alIsBuffer (g.names.getD 1 0), i1),
           (.alGenSources 1 freshEngine.beep_source, s),
           (.alGetError, q),
           (.alDeleteBuffers AL_BUFFERS g.names, u),
           (.alcMakeContextCurrent 0, x),
           (.alcDestroyContext c.handle, y),
           (.alcCloseDevice d.handle, z)] ∧
        (Init fake freshEngine (fakeWorld 0 5)).1 = false) ∨
      (∃ d c m l g r i0 i1 s q a1 a2 a3 a4 a5 a6 a7 a8 : ALRet,
        d.handle ≠ 0 ∧ c.handle ≠ 0 ∧ m.value ≠ 0 ∧ r.value = AL_NO_ERROR ∧ i0.value ≠ 0 ∧
        i1.value ≠ 0 ∧ q.value = AL_NO_ERROR ∧
        evs =
          [(.alcOpenDevice, d),
           (.alcCreateContext d.handle, c),
           (.alcMakeContextCurrent c.handle, m),
           (.alListenerf .AL_GAIN freshEngine.gain, l),
           (.alGenBuffers AL_BUFFERS freshEngine.beep_buff, g),
           (.alGetError, r),
           (.alIsBuffer (g.names.getD 0 0), i0),
           (.alIsBuffer (g.names.getD 1 0), i1),
           (.alGenSources 1 freshEngine.beep_source, s),
           (.alGetError, q),
           (.alSourcef s.handle .AL_PITCH 1, a1),
           (.alSourcef s.handle .AL_GAIN 1, a2),
           (.alSourcefv s.handle .AL_POSITION SourcePos, a3),
           (.alSourcefv s.handle .AL_VELOCITY SourceVel, a4),
           (.alSourcei s.handle .AL_LOOPING 0, a5),
           (.alListenerfv .AL_POSITION ListenerPos, a6),
           (.alListenerfv .AL_VELOCITY ListenerVel, a7),
           (.alListenerfv .AL_ORIENTATION ListenerOri, a8)] ∧
        (Init fake freshEngine (fakeWorld 0 5)).1 = true ∧
        (Init fake freshEngine (fakeWorld 0 5)).2.1 =
          { freshEngine with
              device := d.handle, context := c.handle, beep_buff := g.names,
              buff_created := true, beep_source := s.handle, source_created := true,
              play_buff := 0, initiated := true })) ∧
      ((Init fake freshEngine (fakeWorld 0 5)).1 = true ↔ ∀ ev ∈ evs, failingAnswer ev = false) ∧
      (Init fake freshEngine (fakeWorld 0 5)).2.1.initiated = (Init fake freshEngine (fakeWorld 0 5)).1 ∧
      ((Init fake freshEngine (fakeWorld 0 5)).1 = false →
        released evs = (acquired evs).reverse ∧
        (Init fake freshEngine (fakeWorld 0 5)).2.1.device = 0 ∧ (Init fake freshEngine (fakeWorld 0 5)).2.1.context = 0 ∧
        (Init fake freshEngine (fakeWorld 0 5)).2.1.buff_created = false ∧ (Init fake freshEngine (fakeWorld 0 5)).2.1.source_created = false) ∧
      ((Init fake freshEngine (fakeWorld 0 5)).1 = true →
        released evs = [] ∧ (acquired evs).reverse = (Init fake freshEngine (fakeWorld 0 5)).2.1.held)) :=
  ⟨rfl, rfl, rfl, rfl, rfl,
    C6_init_rollback fake freshEngine (fakeWorld 0 5) rfl rfl rfl rfl rfl⟩

/-- The rollback of `Init` on the scripted backend, one run for each failing step: what
`Init` returns, what the transcript shows as acquired, and what it shows as released. -/
theorem Init_rollback_runs :
    (Init fake freshEngine (fakeWorld 0 1)).1 = false ∧
    acquired (Init fake freshEngine (fakeWorld 0 1)).2.2.log = [] ∧
    released (Init fake freshEngine (fakeWorld 0 1)).2.2.log = [] ∧
    (Init fake freshEngine (fakeWorld 0 2)).1 = false ∧
    acquired (Init fake freshEngine (fakeWorld 0 2)).2.2.log = [.device 7] ∧
    released (Init fake freshEngine (fakeWorld 0 2)).2.2.log = [.device 7] ∧
    (Init fake freshEngine (fakeWorld 0 3)).1 = false ∧
    acquired (Init fake freshEngine (fakeWorld 0 3)).2.2.log = [.device 7, .context 8] ∧
    released (Init fake freshEngine (fakeWorld 0 3)).2.2.log = [.context 8, .device 7] ∧
    (Init fake freshEngine (fakeWorld 0 4)).1 = false ∧
    acquired (Init fake freshEngine (fakeWorld 0 4)).2.2.log = [.device 7, .context 8] ∧
    released (Init fake freshEngine (fakeWorld 0 4)).2.2.log = [.context 8, .device 7] ∧
    (Init fake freshEngine (fakeWorld 0 5)).1 = false ∧
    acquired (Init fake freshEngine (fakeWorld 0 5)).2.2.log =
      [.device 7, .context 8, .buffers [1, 2]] ∧
    released (Init fake freshEngine (fakeWorld 0 5)).2.2.log =
      [.buffers [1, 2], .context 8, .device 7] ∧
    (Init fake freshEngine (fakeWorld 0 6)).1 = false ∧
    acquired (Init fake freshEngine (fakeWorld 0 6)).2.2.log = [.device 7, .context 8] ∧
    released (Init fake freshEngine (fakeWorld 0 6)).2.2.log = [.context 8, .device 7] ∧
    (Init fake freshEngine (fakeWorld 0 0)).1 = true ∧
    acquired (Init fake freshEngine (fakeWorld 0 0)).2.2.log =
      [.device 7, .context 8, .buffers [1, 2], .source 3] ∧
    released (Init fake freshEngine (fakeWorld 0 0)).2.2.log = [] := by
  decide

/-- C9 (amended) at 440 Hz. -/
theorem C9_witness :
    (0 : ℚ) < 440 ∧ (440 : ℚ) < 22050 ∧
    (SineSynth_sample 440 0 = some 128 ∧
      ∀ i : Nat, i < 11025 → ∃ s : Nat, SineSynth_sample 440 i = some s ∧ s ≤ 255) :=
  ⟨by norm_num, by norm_num, C9_sine_samples 440 (by norm_num) (by norm_num)⟩
